import Mathlib

/-!
Verification of the resilient content-acquisition pipeline of this
RSSHub fork: credential resolution, the single-flight dedup cache,
the tiered fetcher, the content extractor and the concurrency
governor, shallowly embedded from the route handlers under
lib/routes (investing, douyin, xiaohongshu, twitter, coindesk).

Strings model JavaScript strings; an empty string is falsy, matching
the truthiness tests in the handlers.  Option String models a value
that may be undefined.  Network, browser and DOM results that the
handlers only consume are oracle inputs to the embedded functions.
-/

set_option maxHeartbeats 1000000
set_option linter.unnecessarySeqFocus false

/-- JavaScript truthiness of a possibly-undefined string: defined and
non-empty. -/
def truthy (o : Option String) : Bool :=
  match o with
  | some s => s ≠ ""
  | none => false

/-- JavaScript `a || b` on possibly-undefined strings: the first truthy
operand, else the second operand. -/
def jsOr (a b : Option String) : Option String :=
  if truthy a then a else b

/-- Substring containment test (used to model regex literal-alternation
matching on page content and log records). -/
def strContainsSub (s pat : String) : Bool :=
  (List.range (s.length + 1)).any (fun i => pat.toList.isPrefixOf (s.toList.drop i))

/-! ## Credential resolution

investing/latest-news.ts (lines 57-71) and
investing/most-popular-news.ts (lines 91-105): the cookie parts from
query, transport header and environment are collected in precedence
order and joined with a semicolon separator; cookieSource labels the
layering. -/

/-- The cookieParts list built by the investing handlers: every
non-empty source is kept, in query, header, env order. -/
def investingCookieParts (q h e : String) : List String :=
  (if q ≠ "" then [q] else []) ++ (if h ≠ "" then [h] else []) ++ (if e ≠ "" then [e] else [])

/-- cookieParts.join with the two-character separator, as in
latest-news.ts line 68. -/
def investingCookie (q h e : String) : String :=
  String.intercalate "; " (investingCookieParts q h e)

/-- The cookieSource label computed at latest-news.ts line 69. -/
def investingCookieSource (q h e : String) : String :=
  if q ≠ "" then "query+env/header" else if h ≠ "" then "header+env" else if e ≠ "" then "env" else "none"

/-! xiaohongshu/check-cookie.ts (lines 34-40): the resolved cookie is
the first truthy source in query, header, config order; cookieSource
reports that single source. -/

/-- The cookie chosen at check-cookie.ts line 37:
cookieFromQuery || headerCookie || config.xiaohongshu.cookie. -/
def xhsCookie (q h c : String) : String :=
  if q ≠ "" then q else if h ≠ "" then h else c

/-- The cookieSource label of check-cookie.ts line 38. -/
def xhsCookieSource (q h c : String) : String :=
  if q ≠ "" then "query" else if h ≠ "" then "header" else if c ≠ "" then "config" else "none"

/-- The cookiePreview logged at check-cookie.ts lines 39-40: the first
32 characters of the resolved cookie, or a fixed marker when absent. -/
def xhsCookiePreview (q h c : String) : String :=
  if xhsCookie q h c ≠ "" then (xhsCookie q h c).take 32 else "none"

/-! douyin/user-web.ts lines 47-50 and douyin/user.ts lines 46-49:
header wins over the configured cookie, and the log line carries only
length and a 32-character prefix of the credential. -/

/-- The douyin cookie resolution: headerCookie || config.douyin.cookies. -/
def douyinCookie (h e : String) : String :=
  if h ≠ "" then h else e

/-- The douyin log record of user-web.ts line 50: source label, length
and the 32-character preview of the resolved cookie. -/
def douyinLogRecord (h e : String) : String :=
  let cookie := douyinCookie h e
  let source := if h ≠ "" then "header" else if e ≠ "" then "env" else "none"
  let preview := if cookie ≠ "" then cookie.take 32 else "none"
  "Douyin cookie source=" ++ source ++ ", length=" ++ toString cookie.length ++ ", prefix=" ++ preview

/-! twitter/user.ts lines 89-105: credentials decoded from base64
query parameters overwrite the process configuration, and line 104
logs the decoded values themselves. -/

/-- The log record emitted at twitter/user.ts line 104 when at least
one decoded query credential is present: it interpolates the full
decoded username, password and authToken. -/
def twitterLogRecord (u p a : Option String) : String :=
  "twitter/user decoded query values: username=" ++ u.getD "none" ++ ", password=" ++ p.getD "none" ++ ", authToken=" ++ a.getD "none"

/-! ## Douyin handlers: uid guard, browser lifecycle, producer -/

/-- The uid guard of douyin/user.ts line 43 and douyin/user-web.ts
line 44: uid.startsWith with the required sec-uid marker, modelled on
the character lists. -/
def douyinUidValid (uid : String) : Bool :=
  "MS4wLjABAAAA".toList.isPrefixOf uid.toList

/-- External side effects a douyin handler can perform, in order. -/
inductive DouyinEffect
  | credentialLog (record : String)
  | cacheAccess (key : String)
  | networkRequest
  deriving DecidableEq

/-- Errors a douyin handler can raise. -/
inductive DouyinError
  | invalidParameter (msg : String)
  | navigationError
  | emptyPostData
  deriving DecidableEq

/-- Whether a browser session was opened and whether it was closed
during one producer run. -/
structure BrowserTrace where
  opened : Bool
  closed : Bool
  deriving DecidableEq

/-- Embedding of the cache producer of douyin/user.ts lines 59-167.
The browser is opened at line 61; page.goto at line 87 is awaited with
no try/finally around it, and browser.close() runs only at line 119 on
the path where navigation did not throw.  Oracles: gotoThrows models
the navigation raising (e.g. a timeout under waitUntil networkidle2);
postData models the post data found by response interception, render
data, or the web-api fallback (none = all three empty). -/
def douyinUserProducer (gotoThrows : Bool) (postData : Option Nat) :
    BrowserTrace × Except DouyinError Nat :=
  if gotoThrows then
    (⟨true, false⟩, .error .navigationError)
  else
    match postData with
    | some d => (⟨true, true⟩, .ok d)
    | none => (⟨true, true⟩, .error .emptyPostData)

/-- Embedding of the douyin/user.ts handler (lines 41-57 plus the
producer): the uid guard runs first; only a valid uid reaches cookie
resolution, the credential log, the cache and the network. -/
def douyinUserHandler (uid h e : String) (gotoThrows : Bool) (postData : Option Nat) :
    List DouyinEffect × Except DouyinError Nat :=
  if ¬ douyinUidValid uid then
    ([], .error (.invalidParameter "Invalid UID. UID should start with <b>MS4wLjABAAAA</b>."))
  else
    ([.credentialLog (douyinLogRecord h e), .cacheAccess ("douyin:user:" ++ uid), .networkRequest],
      (douyinUserProducer gotoThrows postData).2)

/-- Embedding of the douyin/user-web.ts handler (lines 42-90): uid
guard first, then cookie resolution and log, then the cache with a
producer that calls the web api; postData = none models an empty
aweme_list (the producer throws). -/
def douyinUserWebHandler (uid h e : String) (postData : Option Nat) :
    List DouyinEffect × Except DouyinError Nat :=
  if ¬ douyinUidValid uid then
    ([], .error (.invalidParameter "Invalid UID. UID should start with <b>MS4wLjABAAAA</b>."))
  else
    match postData with
    | some d =>
        ([.credentialLog (douyinLogRecord h e), .cacheAccess ("douyin:user-web:" ++ uid), .networkRequest],
          .ok d)
    | none =>
        ([.credentialLog (douyinLogRecord h e), .cacheAccess ("douyin:user-web:" ++ uid), .networkRequest],
          .error .emptyPostData)

/-! ## Dedup cache (single-flight), modelled from the spec

The cache behind cache.tryGet (called at coindesk/news.ts line 40,
douyin/user-web.ts line 58, douyin/user.ts line 57 and
investing/latest-news.ts line 98) lives in lib/utils/cache, which is
not among the provided sources; only its callers are.  The model
below follows the spec of getOrCompute: first miss creates a Pending
entry and invokes the producer; callers arriving while the entry is
Pending are appended as waiters; when the producer resolves, the
entry becomes Ready and every waiter receives the shared result. -/

/-- Modelled from the spec: the state of one CacheEntry for a fixed
key — absent, Pending with its waiter list, or Ready with the value. -/
inductive CEntry (T : Type)
  | pending (waiters : List Nat)
  | ready (v : T)
  deriving DecidableEq

/-- Modelled from the spec: the cache state for one key, plus the
instrumentation the single-flight property is about: how many times
the producer was invoked and which caller received which result. -/
structure CacheSt (T : Type) where
  entry : Option (CEntry T)
  producerRuns : Nat
  delivered : List (Nat × T)
  deriving DecidableEq

/-- Modelled from the spec: the empty cache for one key. -/
def initCache (T : Type) : CacheSt T :=
  ⟨none, 0, []⟩

/-- Modelled from the spec: caller c invokes getOrCompute.  On a miss
a Pending entry is created and the producer starts (producerRuns is
incremented); on a Pending entry the caller suspends as a waiter; on
a Ready entry the stored value is delivered immediately. -/
def getOrComputeArrive {T : Type} (c : Nat) (st : CacheSt T) : CacheSt T :=
  match st.entry with
  | none => { st with entry := some (.pending [c]), producerRuns := st.producerRuns + 1 }
  | some (.pending ws) => { st with entry := some (.pending (ws ++ [c])) }
  | some (.ready v) => { st with delivered := st.delivered ++ [(c, v)] }

/-- Modelled from the spec: the in-flight producer resolves with v;
the entry transitions to Ready and all waiters are released with that
same shared result. -/
def getOrComputeResolve {T : Type} (v : T) (st : CacheSt T) : CacheSt T :=
  match st.entry with
  | some (.pending ws) =>
      { entry := some (.ready v), producerRuns := st.producerRuns,
        delivered := st.delivered ++ ws.map (fun c => (c, v)) }
  | _ => st

/-- Modelled from the spec: a batch of callers all arriving for the
same key before the first call resolves, then the producer resolving. -/
def getOrComputeConcurrent {T : Type} (callers : List Nat) (v : T) : CacheSt T :=
  getOrComputeResolve v (callers.foldl (fun st c => getOrComputeArrive c st) (initCache T))

/-! ## Content extraction (investing/latest-news.ts) -/

/-- The DOM facts the investing extraction chain inspects, after the
script/style/noscript/iframe denoise removal: for each container
selector, the inner html of its first match (some "" models a matched
element with empty html, none models no match), plus the content
attribute of the og:description meta element. -/
structure ArticleDoc where
  idArticlePage : Option String
  classArticlePage : Option String
  articleTag : Option String
  ogDescription : Option String
  deriving DecidableEq

/-- Embedding of the extraction chain at latest-news.ts lines 118-121
(and identically lines 155-158): content is the #articlePage set when
it has matches, else the .articlePage set; article falls back to the
generic article tag when content has no matches; html is the chosen
set's html() || the og:description content, and the description is
set only when that html is truthy. -/
def extractArticle (d : ArticleDoc) : Option String :=
  let content := if d.idArticlePage.isSome then d.idArticlePage else d.classArticlePage
  let article := if content.isSome then content else d.articleTag
  let html := jsOr article d.ogDescription
  if truthy html then html else none

/-- The extraction contract as the spec words it: apply the four
strategies in order and return the first non-empty matched content. -/
def specFirstNonEmptyExtract (d : ArticleDoc) : Option String :=
  if truthy d.idArticlePage then d.idArticlePage
  else if truthy d.classArticlePage then d.classArticlePage
  else if truthy d.articleTag then d.articleTag
  else if truthy d.ogDescription then d.ogDescription
  else none

/-! ## Tiered fetcher (investing routes) -/

/-- Retrieval tiers, in escalation order. -/
inductive Tier
  | direct
  | browser
  | externalRender
  deriving DecidableEq

/-- Substring containment on character lists. -/
def listContainsSub (l pat : List Char) : Bool :=
  (List.range (l.length + 1)).any (fun i => pat.isPrefixOf (l.drop i))

/-- The challenge signature of most-popular-news.ts line 13: a
case-insensitive match of one of the three Cloudflare markers of the
regex literal alternation. -/
def isChallengePage (content : String) : Bool :=
  let lc := content.toList.map Char.toLower
  listContainsSub lc "just a moment...".toList ||
    listContainsSub lc "cf_chl_opt".toList ||
    listContainsSub lc "challenge-platform".toList

/-- The blocked-content judgment applied to a tier's body at
most-popular-news.ts lines 118 and 151: empty content or the
challenge signature. -/
def contentBlocked (s : String) : Bool :=
  (s = "" : Bool) || isChallengePage s

/-- Whether the direct got attempt of fetchListHtml is judged a
failure (most-popular-news.ts lines 110-120): the transport threw
(direct = none), or the body is empty or matches the challenge
signature. -/
def directFailed (direct : Option String) : Bool :=
  match direct with
  | none => true
  | some s => contentBlocked s

/-- The error the direct attempt raises when it fails: the transport
error itself, or the Blocked by Cloudflare error thrown at line 119. -/
def directError (direct : Option String) : String :=
  match direct with
  | none => "network error"
  | some _ => "Blocked by Cloudflare"

/-- Embedding of fetchWithRealBrowser (most-popular-news.ts lines
14-25): the first rendered fragment of the configured external
service, or the empty string when the service is not configured, the
call throws, or the fragment list yields nothing usable. -/
def fetchWithRealBrowser (serviceConfigured : Bool) (fragments : List String) : String :=
  if serviceConfigured then fragments.headD "" else ""

/-- Embedding of fetchListHtml (most-popular-news.ts lines 107-160).
Oracles: direct is the direct got body (none = transport threw);
browser is the puppeteer page content (none = the puppeteer attempt
threw; its finally still destroys the page); fragments are the
external service's rendered fragments.  Returns the tiers attempted
in order and the result carried to the handler. -/
def fetchListHtml (direct : Option String) (usePuppeteer : Bool) (browser : Option String)
    (serviceConfigured : Bool) (fragments : List String) :
    List Tier × Except String String :=
  if directFailed direct = false then
    ([.direct], .ok (direct.getD ""))
  else if usePuppeteer = false then
    ([.direct], .error (directError direct))
  else
    match browser with
    | none => ([.direct, .browser], .error "puppeteer error")
    | some listHtml =>
        if (contentBlocked listHtml && serviceConfigured) = true then
          if fetchWithRealBrowser serviceConfigured fragments ≠ "" then
            ([.direct, .browser, .externalRender], .ok (fetchWithRealBrowser serviceConfigured fragments))
          else
            ([.direct, .browser, .externalRender], .ok listHtml)
        else
          ([.direct, .browser], .ok listHtml)

/-- Embedding of tryGot inside fetchItem (latest-news.ts lines
99-130): without a cookie there is no direct attempt; with one, the
attempt succeeds iff the got call returned (doc = some, the oracle
DOM) and the extraction chain produced truthy html.  Returns gotOk
and the description that was set. -/
def tryGot (cookie : String) (doc : Option ArticleDoc) : Bool × Option String :=
  if cookie = "" then (false, none)
  else
    match doc with
    | none => (false, none)
    | some d =>
        match extractArticle d with
        | some html => (true, some html)
        | none => (false, none)

/-- The tier list of the direct attempt inside fetchItem: empty when
no cookie is present (tryGot returns early without a request), else
the direct tier. -/
def fetchItemDirectAttempts (cookie : String) : List Tier :=
  if cookie = "" then [] else [.direct]

/-- Embedding of fetchItem (latest-news.ts lines 97-169): the direct
tryGot attempt first; the puppeteer tier runs iff that attempt did
not succeed and usePuppeteer is enabled; puppDoc is the rendered DOM
(none = the puppeteer attempt threw; the catch swallows the error and
the finally destroys the page either way).  Returns the tiers
attempted and the item description. -/
def fetchItem (cookie : String) (usePuppeteer : Bool) (doc puppDoc : Option ArticleDoc) :
    List Tier × Option String :=
  if ((tryGot cookie doc).1 || !usePuppeteer) = true then
    (fetchItemDirectAttempts cookie, (tryGot cookie doc).2)
  else
    match puppDoc with
    | none => (fetchItemDirectAttempts cookie ++ [.browser], none)
    | some d => (fetchItemDirectAttempts cookie ++ [.browser], extractArticle d)

/-- Embedding of the most-popular-news handler downstream of
fetchListHtml (most-popular-news.ts lines 162-204): the list page is
parsed into items (parseList abstracts the cheerio selector work of
lines 165-191; blocked or empty content yields no items); the
explicit parse-failure error at line 193 is raised only when no item
parsed AND no cookie was supplied AND puppeteer was disabled;
otherwise the first limit items are returned. -/
def mostPopularHandler (direct : Option String) (usePuppeteer : Bool) (browser : Option String)
    (serviceConfigured : Bool) (fragments : List String) (parseList : String → List String)
    (cookie : String) (limit : Nat) : Except String (List String) :=
  match fetchListHtml direct usePuppeteer browser serviceConfigured fragments with
  | (_, .error e) => .error e
  | (_, .ok listHtml) =>
      if (parseList listHtml).length = 0 ∧ cookie = "" ∧ usePuppeteer = false then
        .error "Failed to parse list page. Try passing a valid cookie or enabling puppeteer."
      else
        .ok ((parseList listHtml).take limit)

/-! ## Concurrency governor (latest-news.ts lines 171-181) -/

/-- Embedding of the serial branch of the batch loop (lines 172-178):
one item at a time, results pushed in input order. -/
def serialRun {α β : Type} (worker : α → β) : List α → List β
  | [] => []
  | x :: xs => worker x :: serialRun worker xs

/-- The settle events of the concurrent branch under a completion
schedule sched (the indices in the order the in-flight promises
settle): each event carries the input index and that item's result. -/
def completionEvents {α β : Type} (worker : α → β) (items : List α) (sched : List Nat) :
    List (Nat × β) :=
  sched.filterMap (fun i => (items.get? i).map (fun x => (i, worker x)))

/-- The Promise.all collection of the concurrent branch (line 180):
the result array is indexed by input position, independent of the
completion order of the events. -/
def promiseAll {α β : Type} (worker : α → β) (items : List α) (sched : List Nat) :
    List (Option β) :=
  (List.range items.length).map
    (fun i => ((completionEvents worker items sched).find? (fun e => e.1 == i)).map (fun e => e.2))

/-- Embedding of the item pipeline of the latest-news handler
(latest-news.ts lines 55, 87-95 and 171-181): limit defaults to 20
when the query is absent; the parsed feed entries are truncated to
the first limit elements by slice(0, limit) before any per-item
fetching; the batch then runs fetchOne over exactly those entries,
serially when puppeteer is enabled and concurrently otherwise. -/
def latestNewsItems {α β : Type} (limitQ : Option Nat) (usePuppeteer : Bool)
    (feedItems : List α) (fetchOne : α → β) : List β :=
  if usePuppeteer then
    serialRun fetchOne (feedItems.take (limitQ.getD 20))
  else
    (feedItems.take (limitQ.getD 20)).map fetchOne

/-! ## Theorems -/

theorem getOrComputeArrive_foldl {T : Type} (callers ws : List Nat) (n : Nat) (del : List (Nat × T)) :
    callers.foldl (fun st c => getOrComputeArrive c st) ⟨some (.pending ws), n, del⟩ =
      ⟨some (.pending (ws ++ callers)), n, del⟩ := by
  induction callers generalizing ws with
  | nil => simp
  | cons c cs ih =>
      rw [List.foldl_cons]
      have h1 : getOrComputeArrive c (⟨some (.pending ws), n, del⟩ : CacheSt T) =
          ⟨some (.pending (ws ++ [c])), n, del⟩ := rfl
      rw [h1, ih]
      simp [List.append_assoc]

/-! ## Claims C1, C2, C5, C10 -/

/-- Claim C1 counterexample: in the investing resolver, with
query = "a", header = "b", env = "c" all non-empty, the resolved
credential is the concatenation "a; b; c", not the query value alone,
and the provenance label is the layered "query+env/header", not a pure
query provenance. -/
theorem investing_concatenates_counterexample :
    investingCookie "a" "b" "c" = "a; b; c" ∧
    investingCookie "a" "b" "c" ≠ "a" ∧
    investingCookieSource "a" "b" "c" = "query+env/header" := by
  decide

/-- Claim C1 (amended): in the xiaohongshu resolver the highest-
precedence non-empty source wins outright (query, else header, else
config) with matching provenance; the investing resolvers instead
concatenate every non-empty source in precedence order with a
semicolon separator and label the provenance with the layering. -/
theorem credential_precedence (q h c : String) :
    (q ≠ "" → xhsCookie q h c = q ∧ xhsCookieSource q h c = "query") ∧
    (q = "" → h ≠ "" → xhsCookie q h c = h ∧ xhsCookieSource q h c = "header") ∧
    (q ≠ "" → h ≠ "" → c ≠ "" →
      investingCookieParts q h c = [q, h, c] ∧
      investingCookie q h c = String.intercalate "; " [q, h, c] ∧
      investingCookieSource q h c = "query+env/header") := by
  refine ⟨fun hq => ?_, fun hq hh => ?_, fun hq hh hc => ?_⟩
  · simp [xhsCookie, xhsCookieSource, hq]
  · simp [xhsCookie, xhsCookieSource, hq, hh]
  · simp [investingCookie, investingCookieParts, investingCookieSource, hq, hh, hc]

/-- Witness for the amended claim C1, at query = "a", header = "b",
env/config = "c" and at the header-only instance. -/
theorem credential_precedence_witness :
    (xhsCookie "a" "b" "c" = "a" ∧ xhsCookieSource "a" "b" "c" = "query") ∧
    (xhsCookie "" "b" "c" = "b" ∧ xhsCookieSource "" "b" "c" = "header") ∧
    investingCookie "a" "b" "c" = String.intercalate "; " ["a", "b", "c"] := by
  have h1 := (credential_precedence "a" "b" "c").1 (by decide)
  have h2 := (credential_precedence "" "b" "c").2.1 rfl (by decide)
  have h3 := (credential_precedence "a" "b" "c").2.2 (by decide) (by decide) (by decide)
  exact ⟨h1, h2, h3.2.1⟩

/-- Claim C2: refuted by the twitter/user handler.  At a concrete
41-character password decoded from the query, the observability record
of twitter/user.ts line 104 contains the full credential value, not a
bounded 32-character preview. -/
theorem twitter_log_contains_full_credential :
    32 < ("a-password-credential-of-forty-characters" : String).length ∧
    strContainsSub
      (twitterLogRecord none (some "a-password-credential-of-forty-characters") none)
      "a-password-credential-of-forty-characters" = true := by
  decide

/-- Claim C5: refuted by douyin/user.ts.  When navigation throws, the
producer exits with the browser session opened but never closed:
browser.close() at line 119 is not reached and no try/finally guards
the goto at line 87. -/
theorem douyin_browser_session_leak :
    (douyinUserProducer true (some 0)).1.opened = true ∧
    (douyinUserProducer true (some 0)).1.closed = false ∧
    (douyinUserProducer true (some 0)).2 = .error .navigationError :=
  ⟨rfl, rfl, rfl⟩

/-- Claim C10: both douyin handlers raise InvalidParameterError exactly
when the uid does not start with MS4wLjABAAAA, and on that path the
effect list is empty: no credential log, no cache access, no network
request precedes the guard. -/
theorem douyin_uid_guard (uid h e : String) (gt : Bool) (d : Option Nat) :
    (douyinUidValid uid = false →
      douyinUserHandler uid h e gt d =
        ([], .error (.invalidParameter "Invalid UID. UID should start with <b>MS4wLjABAAAA</b>.")) ∧
      douyinUserWebHandler uid h e d =
        ([], .error (.invalidParameter "Invalid UID. UID should start with <b>MS4wLjABAAAA</b>."))) ∧
    (douyinUidValid uid = true →
      (∀ msg, (douyinUserHandler uid h e gt d).2 ≠ .error (.invalidParameter msg)) ∧
      (∀ msg, (douyinUserWebHandler uid h e d).2 ≠ .error (.invalidParameter msg))) := by
  refine ⟨fun hv => ?_, fun hv => ?_⟩
  · simp [douyinUserHandler, douyinUserWebHandler, hv]
  · constructor
    · intro msg
      simp only [douyinUserHandler, hv]
      cases gt <;> cases d <;> simp [douyinUserProducer]
    · intro msg
      cases d <;> simp [douyinUserWebHandler, hv]

/-- Witness for claim C10 at a valid and an invalid uid. -/
theorem douyin_uid_guard_witness :
    douyinUserWebHandler "foo" "h" "e" (some 1) =
      ([], .error (.invalidParameter "Invalid UID. UID should start with <b>MS4wLjABAAAA</b>.")) ∧
    (douyinUserWebHandler "MS4wLjABAAAAxyz" "h" "e" (some 1)).2 ≠
      .error (.invalidParameter "anything") := by
  have h1 := (douyin_uid_guard "foo" "h" "e" false (some 1)).1 (by decide)
  have h2 := (douyin_uid_guard "MS4wLjABAAAAxyz" "h" "e" false (some 1)).2 (by decide)
  exact ⟨h1.2, h2.2 "anything"⟩

/-- Claim C3: single-flight.  For every non-empty set of callers that
all request the same key before the first producer resolves, the
producer is invoked exactly once, and every caller receives the same
shared result. -/
theorem cache_single_flight {T : Type} (callers : List Nat) (v : T) (h : callers ≠ []) :
    (getOrComputeConcurrent callers v).producerRuns = 1 ∧
    (getOrComputeConcurrent callers v).delivered = callers.map (fun c => (c, v)) := by
  match callers with
  | [] => exact absurd rfl h
  | c :: cs =>
      unfold getOrComputeConcurrent
      rw [List.foldl_cons]
      have h0 : getOrComputeArrive c (initCache T) = ⟨some (.pending [c]), 1, []⟩ := rfl
      rw [h0, getOrComputeArrive_foldl]
      simp [getOrComputeResolve]

/-- Witness for claim C3 at three concurrent callers and value 42. -/
theorem cache_single_flight_witness :
    ([0, 1, 2] : List Nat) ≠ [] ∧
    (getOrComputeConcurrent [0, 1, 2] (42 : Nat)).producerRuns = 1 ∧
    (getOrComputeConcurrent [0, 1, 2] (42 : Nat)).delivered = [(0, 42), (1, 42), (2, 42)] := by
  have h := cache_single_flight [0, 1, 2] (42 : Nat) (by decide)
  exact ⟨by decide, h.1, h.2.trans (by decide)⟩

/-- Claim C7 counterexample: a document whose #articlePage selector
matches an element with empty html while .articlePage matches with
content X.  The code picks the #articlePage container by match count,
finds its html empty and falls through to the og:description meta, so
the outcome is M; the first non-empty strategy result in the claimed
order would be X. -/
theorem extraction_counterexample :
    extractArticle ⟨some "", some "X", some "Y", some "M"⟩ = some "M" ∧
    specFirstNonEmptyExtract ⟨some "", some "X", some "Y", some "M"⟩ = some "X" := by
  decide

/-- Claim C7 (amended): strategies are applied in the fixed order
#articlePage, .articlePage, article, og:description, but containers
are chosen by selector presence, not by non-empty content: the first
matching container wins, and the og:description fallback is used
exactly when the chosen container's html is empty.  In particular,
whenever #articlePage matches with non-empty content the outcome is
always strategy 1's match, and the .articlePage strategy is never
consulted once #articlePage matches. -/
theorem extraction_order (d : ArticleDoc) :
    (truthy d.idArticlePage = true → extractArticle d = d.idArticlePage) ∧
    (d.idArticlePage = none → truthy d.classArticlePage = true →
      extractArticle d = d.classArticlePage) ∧
    (d.idArticlePage = none → d.classArticlePage = none → truthy d.articleTag = true →
      extractArticle d = d.articleTag) ∧
    (d.idArticlePage.isSome = true →
      ∀ c, extractArticle { d with classArticlePage := c } = extractArticle d) := by
  refine ⟨fun h1 => ?_, fun h1 h2 => ?_, fun h1 h2 h3 => ?_, fun h1 c => ?_⟩
  · cases hid : d.idArticlePage with
    | none => rw [hid] at h1; simp [truthy] at h1
    | some s =>
        rw [hid] at h1
        simp only [truthy, decide_eq_true_eq] at h1
        simp [extractArticle, jsOr, hid, truthy, h1]
  · cases hcl : d.classArticlePage with
    | none => rw [hcl] at h2; simp [truthy] at h2
    | some s =>
        rw [hcl] at h2
        simp only [truthy, decide_eq_true_eq] at h2
        simp [extractArticle, jsOr, h1, hcl, truthy, h2]
  · cases hat : d.articleTag with
    | none => rw [hat] at h3; simp [truthy] at h3
    | some s =>
        rw [hat] at h3
        simp only [truthy, decide_eq_true_eq] at h3
        simp [extractArticle, jsOr, h1, h2, hat, truthy, h3]
  · simp [extractArticle, h1]

/-- Witness for the amended claim C7. -/
theorem extraction_order_witness :
    extractArticle ⟨some "A", some "X", some "Y", some "M"⟩ = some "A" ∧
    extractArticle ⟨none, some "X", some "Y", some "M"⟩ = some "X" ∧
    extractArticle ⟨none, none, some "Y", some "M"⟩ = some "Y" ∧
    extractArticle ⟨some "A", some "Z", some "Y", some "M"⟩ =
      extractArticle ⟨some "A", some "X", some "Y", some "M"⟩ := by
  refine ⟨?_, ?_, ?_, ?_⟩
  · exact (extraction_order ⟨some "A", some "X", some "Y", some "M"⟩).1 (by decide)
  · exact (extraction_order ⟨none, some "X", some "Y", some "M"⟩).2.1 rfl (by decide)
  · exact (extraction_order ⟨none, none, some "Y", some "M"⟩).2.2.1 rfl rfl (by decide)
  · exact ((extraction_order ⟨some "A", some "X", some "Y", some "M"⟩).2.2.2 (by decide)
      (some "Z")).trans
      (((extraction_order ⟨some "A", some "X", some "Y", some "M"⟩).2.2.2 (by decide)
        (some "X")).symm)

theorem fetchListHtml_direct_ok (direct : Option String) (up : Bool) (browser : Option String)
    (sc : Bool) (frags : List String) (h : directFailed direct = false) :
    fetchListHtml direct up browser sc frags = ([.direct], .ok (direct.getD "")) := by
  simp [fetchListHtml, h]

theorem fetchListHtml_direct_failed_no_browser (direct : Option String) (browser : Option String)
    (sc : Bool) (frags : List String) (h : directFailed direct = true) :
    fetchListHtml direct false browser sc frags = ([.direct], .error (directError direct)) := by
  simp [fetchListHtml, h]

theorem fetchListHtml_browser_threw (direct : Option String) (sc : Bool) (frags : List String)
    (h : directFailed direct = true) :
    fetchListHtml direct true none sc frags = ([.direct, .browser], .error "puppeteer error") := by
  simp [fetchListHtml, h]

theorem fetchListHtml_browser_done (direct : Option String) (bh : String) (sc : Bool)
    (frags : List String) (h : directFailed direct = true)
    (hc : (contentBlocked bh && sc) = false) :
    fetchListHtml direct true (some bh) sc frags = ([.direct, .browser], .ok bh) := by
  simp [fetchListHtml, h, hc]

theorem fetchListHtml_external (direct : Option String) (bh : String) (sc : Bool)
    (frags : List String) (h : directFailed direct = true)
    (hc : (contentBlocked bh && sc) = true) :
    fetchListHtml direct true (some bh) sc frags =
      ([.direct, .browser, .externalRender],
        .ok (if fetchWithRealBrowser sc frags = "" then bh else fetchWithRealBrowser sc frags)) := by
  unfold fetchListHtml
  rw [h]
  dsimp only
  rw [hc]
  by_cases hf : fetchWithRealBrowser sc frags = "" <;> simp [hf]

/-- Case principle for fetchListHtml: every evaluation lands in one
of the five exit shapes. -/
theorem fetchListHtml_cases (direct : Option String) (up : Bool) (browser : Option String)
    (sc : Bool) (frags : List String) (P : List Tier × Except String String → Prop)
    (h1 : directFailed direct = false → P ([.direct], .ok (direct.getD "")))
    (h2 : directFailed direct = true → up = false → P ([.direct], .error (directError direct)))
    (h3 : directFailed direct = true → up = true → browser = none →
      P ([.direct, .browser], .error "puppeteer error"))
    (h4 : ∀ bh, directFailed direct = true → up = true → browser = some bh →
      (contentBlocked bh && sc) = false → P ([.direct, .browser], .ok bh))
    (h5 : ∀ bh, directFailed direct = true → up = true → browser = some bh →
      (contentBlocked bh && sc) = true →
      P ([.direct, .browser, .externalRender],
        .ok (if fetchWithRealBrowser sc frags = "" then bh else fetchWithRealBrowser sc frags))) :
    P (fetchListHtml direct up browser sc frags) := by
  cases hdf : directFailed direct with
  | false => rw [fetchListHtml_direct_ok direct up browser sc frags hdf]; exact h1 hdf
  | true =>
      cases up with
      | false =>
          rw [fetchListHtml_direct_failed_no_browser direct browser sc frags hdf]
          exact h2 hdf rfl
      | true =>
          cases hb : browser with
          | none => rw [fetchListHtml_browser_threw direct sc frags hdf]; exact h3 hdf rfl hb
          | some bh =>
              cases hc : (contentBlocked bh && sc) with
              | false =>
                  rw [fetchListHtml_browser_done direct bh sc frags hdf hc]
                  exact h4 bh hdf rfl hb hc
              | true =>
                  rw [fetchListHtml_external direct bh sc frags hdf hc]
                  exact h5 bh hdf rfl hb hc

/-- Case principle for fetchItem: every evaluation lands in one of
the three exit shapes. -/
theorem fetchItem_cases (cookie : String) (up : Bool) (doc pd : Option ArticleDoc)
    (P : List Tier × Option String → Prop)
    (h1 : ((tryGot cookie doc).1 || !up) = true →
      P (fetchItemDirectAttempts cookie, (tryGot cookie doc).2))
    (h2 : (tryGot cookie doc).1 = false → up = true → pd = none →
      P (fetchItemDirectAttempts cookie ++ [.browser], none))
    (h3 : ∀ d, (tryGot cookie doc).1 = false → up = true → pd = some d →
      P (fetchItemDirectAttempts cookie ++ [.browser], extractArticle d)) :
    P (fetchItem cookie up doc pd) := by
  unfold fetchItem
  cases hcond : ((tryGot cookie doc).1 || !up) with
  | true => rw [if_pos rfl]; exact h1 hcond
  | false =>
      have hg : (tryGot cookie doc).1 = false := by
        cases hgg : (tryGot cookie doc).1
        · rfl
        · rw [hgg] at hcond; simp at hcond
      have hu : up = true := by
        cases huu : up
        · rw [huu, hg] at hcond; simp at hcond
        · rfl
      rw [if_neg (by simp : ¬ (false = true))]
      cases hpd : pd with
      | none => exact h2 hg hu hpd
      | some d => exact h3 d hg hu hpd

theorem browser_not_mem_directAttempts (cookie : String) :
    Tier.browser ∉ fetchItemDirectAttempts cookie := by
  unfold fetchItemDirectAttempts
  by_cases hc : cookie = "" <;> simp [hc]

/-- Claim C4: tier escalation is monotonic and each tier is attempted
at most once.  In fetchListHtml the browser tier is attempted iff the
direct tier failed (threw, empty body, or challenge signature) and
the puppeteer flag permits it; the external render tier is attempted
iff, additionally, the browser tier's content was judged blocked
(empty or challenge signature) and the external service is
configured; the attempt list never repeats a tier.  In fetchItem the
browser tier is attempted iff the direct tryGot attempt did not
succeed and the puppeteer flag permits it. -/
theorem tier_escalation (direct : Option String) (up : Bool) (browser : Option String)
    (sc : Bool) (frags : List String) (cookie : String) (doc pd : Option ArticleDoc) :
    (Tier.browser ∈ (fetchListHtml direct up browser sc frags).1 ↔
      directFailed direct = true ∧ up = true) ∧
    (Tier.externalRender ∈ (fetchListHtml direct up browser sc frags).1 ↔
      directFailed direct = true ∧ up = true ∧
      ∃ bh, browser = some bh ∧ (contentBlocked bh && sc) = true) ∧
    (fetchListHtml direct up browser sc frags).1.Nodup ∧
    (Tier.browser ∈ (fetchItem cookie up doc pd).1 ↔
      (tryGot cookie doc).1 = false ∧ up = true) ∧
    (fetchItem cookie up doc pd).1.Nodup := by
  refine ⟨?_, ?_, ?_, ?_, ?_⟩
  · refine fetchListHtml_cases direct up browser sc frags
      (fun r => Tier.browser ∈ r.1 ↔ directFailed direct = true ∧ up = true)
      ?_ ?_ ?_ ?_ ?_
    · intro hdf; simp [hdf]
    · intro hdf hu; simp [hdf, hu]
    · intro hdf hu hb; simp [hdf, hu]
    · intro bh hdf hu hb hc; simp [hdf, hu]
    · intro bh hdf hu hb hc; simp [hdf, hu]
  · refine fetchListHtml_cases direct up browser sc frags
      (fun r => Tier.externalRender ∈ r.1 ↔
        directFailed direct = true ∧ up = true ∧
        ∃ bh, browser = some bh ∧ (contentBlocked bh && sc) = true)
      ?_ ?_ ?_ ?_ ?_
    · intro hdf
      simp only [List.mem_singleton]
      constructor
      · intro hmem; cases hmem
      · rintro ⟨hdf2, -⟩; rw [hdf] at hdf2; cases hdf2
    · intro hdf hu
      simp only [List.mem_cons, List.not_mem_nil]
      constructor
      · rintro (h | h | h) <;> try cases h
      · rintro ⟨-, hu2, -⟩; rw [hu] at hu2; cases hu2
    · intro hdf hu hb
      simp only [List.mem_cons, List.not_mem_nil]
      constructor
      · rintro (h | h | h) <;> cases h
      · rintro ⟨-, -, bh2, hb2, -⟩; rw [hb] at hb2; cases hb2
    · intro bh hdf hu hb hc
      simp only [List.mem_cons, List.not_mem_nil]
      constructor
      · rintro (h | h | h) <;> cases h
      · rintro ⟨-, -, bh2, hb2, hc2⟩
        rw [hb] at hb2
        injection hb2 with hbe
        rw [← hbe] at hc2
        rw [hc] at hc2
        cases hc2
    · intro bh hdf hu hb hc
      exact iff_of_true (by simp) ⟨hdf, hu, bh, hb, hc⟩
  · refine fetchListHtml_cases direct up browser sc frags (fun r => r.1.Nodup) ?_ ?_ ?_ ?_ ?_ <;>
      intros <;> simp
  · refine fetchItem_cases cookie up doc pd
      (fun r => Tier.browser ∈ r.1 ↔ (tryGot cookie doc).1 = false ∧ up = true) ?_ ?_ ?_
    · intro hcond
      refine iff_of_false (browser_not_mem_directAttempts cookie) ?_
      rintro ⟨hg, hu⟩
      rw [hg, hu] at hcond
      simp at hcond
    · intro hg hu hpd
      exact iff_of_true (by simp) ⟨hg, hu⟩
    · intro d hg hu hpd
      exact iff_of_true (by simp) ⟨hg, hu⟩
  · refine fetchItem_cases cookie up doc pd (fun r => r.1.Nodup) ?_ ?_ ?_
    · intro hcond
      unfold fetchItemDirectAttempts
      by_cases hc : cookie = "" <;> simp [hc]
    · intro hg hu hpd
      unfold fetchItemDirectAttempts
      by_cases hc : cookie = "" <;> simp [hc]
    · intro d hg hu hpd
      unfold fetchItemDirectAttempts
      by_cases hc : cookie = "" <;> simp [hc]

/-- Witness for claim C4: a blocked direct body with puppeteer
enabled escalates to the browser tier; browser content carrying the
challenge marker with a configured external service escalates once
more; no tier repeats. -/
theorem tier_escalation_witness :
    Tier.browser ∈ (fetchListHtml (some "") true (some "cf_chl_opt page") true ["f"]).1 ∧
    Tier.externalRender ∈ (fetchListHtml (some "") true (some "cf_chl_opt page") true ["f"]).1 ∧
    (fetchListHtml (some "") true (some "cf_chl_opt page") true ["f"]).1.Nodup := by
  have h := tier_escalation (some "") true (some "cf_chl_opt page") true ["f"] "" none none
  exact ⟨h.1.mpr ⟨by decide, rfl⟩,
    h.2.1.mpr ⟨by decide, rfl, "cf_chl_opt page", rfl, by decide⟩,
    h.2.2.1⟩

/-- Claim C6 counterexample: the external render tier is configured
but returns an empty fragment list, after a failed direct tier and a
browser tier that produced empty content.  All three tiers were
attempted and exhausted, yet fetchListHtml returns the blocked
browser content as a success and the handler returns an empty item
list, not an AllTiersExhausted-style error. -/
theorem external_empty_counterexample :
    mostPopularHandler none true (some "") true [] (fun _ => []) "" 20 = .ok [] ∧
    (fetchListHtml none true (some "") true []).1 = [.direct, .browser, .externalRender] ∧
    (fetchListHtml none true (some "") true []).2 = .ok "" := by
  refine ⟨rfl, rfl, rfl⟩

/-- Claim C6 (amended): when the external render tier is configured
but returns an empty fragment list after a failed direct tier and a
blocked or empty browser tier, the pipeline does not crash, but it
also does not surface an explicit failure: fetchListHtml returns the
browser tier's content as a success, and the handler returns
whatever items parse out of that content (an empty list when the
content is unusable).  The handler's explicit error cannot fire on
this path because reaching the external tier requires puppeteer to
be enabled. -/
theorem external_empty_fragments (direct : Option String) (bh : String)
    (fragments : List String) (parseList : String → List String) (cookie : String) (limit : Nat)
    (hd : directFailed direct = true) (hb : contentBlocked bh = true)
    (hf : fragments.headD "" = "") :
    fetchListHtml direct true (some bh) true fragments =
      ([.direct, .browser, .externalRender], .ok bh) ∧
    mostPopularHandler direct true (some bh) true fragments parseList cookie limit =
      .ok ((parseList bh).take limit) := by
  have hreal : fetchWithRealBrowser true fragments = "" := by
    simp only [fetchWithRealBrowser, if_pos rfl]
    exact hf
  have hfl : fetchListHtml direct true (some bh) true fragments =
      ([.direct, .browser, .externalRender], .ok bh) := by
    have hc : (contentBlocked bh && true) = true := by rw [hb]; rfl
    rw [fetchListHtml_external direct bh true fragments hd hc, hreal]
    simp
  refine ⟨hfl, ?_⟩
  unfold mostPopularHandler
  rw [hfl]
  simp

/-- Witness for the amended claim C6. -/
theorem external_empty_fragments_witness :
    mostPopularHandler none true (some "") true [] (fun _ => ["i1", "i2"]) "c" 1 = .ok ["i1"] := by
  have h := external_empty_fragments none "" [] (fun _ => ["i1", "i2"]) "c" 1
    (by decide) (by decide) (by decide)
  exact h.2.trans rfl

theorem serialRun_eq_map {α β : Type} (worker : α → β) (l : List α) :
    serialRun worker l = l.map worker := by
  induction l with
  | nil => rfl
  | cons x xs ih => simp [serialRun, ih]

theorem find_completionEvents {α β : Type} (worker : α → β) (items : List α)
    (sched : List Nat) (i : Nat) (hi : i ∈ sched)
    (hlt : ∀ j ∈ sched, j < items.length) :
    (completionEvents worker items sched).find? (fun e => e.1 == i) =
      (items.get? i).map (fun x => (i, worker x)) := by
  induction sched with
  | nil => cases hi
  | cons j rest ih =>
      have hj : j < items.length := hlt j (List.mem_cons_self j rest)
      have hxj : items.get? j = some (items.get ⟨j, hj⟩) := List.get?_eq_get hj
      unfold completionEvents
      rw [List.filterMap_cons, hxj]
      simp only [Option.map_some']
      by_cases hji : j = i
      · subst hji
        simp [List.find?_cons, ← List.get?_eq_getElem?, hxj]
      · have hbeq : ((j, worker (items.get ⟨j, hj⟩)).1 == i) = false := by
          simp only [beq_eq_false_iff_ne, ne_eq]
          exact hji
        simp only [List.find?_cons, hbeq]
        have hi2 : i ∈ rest := by
          cases hi with
          | head => exact absurd rfl hji
          | tail _ h => exact h
        exact ih hi2 (fun k hk => hlt k (List.mem_cons_of_mem j hk))

theorem range_map_get {α β : Type} (l : List α) (g : α → β) :
    (List.range l.length).map (fun i => (l.get? i).map g) = l.map (fun x => some (g x)) := by
  induction l with
  | nil => simp
  | cons x xs ih =>
      rw [List.length_cons, List.range_succ_eq_map, List.map_cons, List.map_map]
      simp only [List.get?_cons_zero, Option.map_some']
      congr 1

/-- Claim C8: batch output order equals input order for both
execution policies and all batch sizes.  The serial loop yields
exactly the worker image of the input list in input order; the
concurrent Promise.all collection yields the same positional results
for every completion schedule (any permutation of the indices),
regardless of the order in which items settle. -/
theorem batch_order {α β : Type} (worker : α → β) (items : List α) (sched : List Nat)
    (hperm : sched.Perm (List.range items.length)) :
    serialRun worker items = items.map worker ∧
    promiseAll worker items sched = items.map (fun x => some (worker x)) := by
  refine ⟨serialRun_eq_map worker items, ?_⟩
  unfold promiseAll
  have hlt : ∀ j ∈ sched, j < items.length := by
    intro j hj
    have := hperm.mem_iff.mp hj
    exact List.mem_range.mp this
  have hstep : ∀ i ∈ List.range items.length,
      ((completionEvents worker items sched).find? (fun e => e.1 == i)).map (fun e => e.2) =
        (items.get? i).map worker := by
    intro i hi
    have hmem : i ∈ sched := hperm.mem_iff.mpr hi
    rw [find_completionEvents worker items sched i hmem hlt]
    cases items.get? i <;> rfl
  rw [List.map_congr_left hstep]
  exact range_map_get items worker

/-- Witness for claim C8 at a three-item batch with an out-of-order
completion schedule. -/
theorem batch_order_witness :
    ([2, 0, 1] : List Nat).Perm (List.range 3) ∧
    serialRun (fun n => n + 1) [10, 20, 30] = [11, 21, 31] ∧
    promiseAll (fun n => n + 1) [10, 20, 30] [2, 0, 1] = [some 11, some 21, some 31] := by
  have h := batch_order (fun n => n + 1) [10, 20, 30] [2, 0, 1] (by decide)
  exact ⟨by decide, h.1.trans (by decide), h.2.trans (by decide)⟩

/-- Claim C9: with limit parameter L (default 20) the returned item
list is the image of exactly the first L parsed entries, in source
order, so per-item fetching only ever runs on those entries and the
feed carries at most L items; the most-popular handler likewise
returns at most L items on success. -/
theorem limit_truncation {α β : Type} (limitQ : Option Nat) (up : Bool)
    (feedItems : List α) (fetchOne : α → β) :
    latestNewsItems limitQ up feedItems fetchOne =
      (feedItems.take (limitQ.getD 20)).map fetchOne ∧
    (latestNewsItems limitQ up feedItems fetchOne).length ≤ limitQ.getD 20 ∧
    (limitQ = none → (latestNewsItems limitQ up feedItems fetchOne).length ≤ 20) ∧
    (∀ direct browser sc frags parseList cookie out,
      mostPopularHandler direct up browser sc frags parseList cookie (limitQ.getD 20) =
        .ok out → out.length ≤ limitQ.getD 20) := by
  have hmain : latestNewsItems limitQ up feedItems fetchOne =
      (feedItems.take (limitQ.getD 20)).map fetchOne := by
    unfold latestNewsItems
    cases up <;> simp [serialRun_eq_map]
  have hlen : (latestNewsItems limitQ up feedItems fetchOne).length ≤ limitQ.getD 20 := by
    rw [hmain, List.length_map]
    exact List.length_take_le (limitQ.getD 20) feedItems
  refine ⟨hmain, hlen, fun hq => by subst hq; simpa using hlen, ?_⟩
  intro direct browser sc frags parseList cookie out hok
  unfold mostPopularHandler at hok
  rcases hfl : fetchListHtml direct up browser sc frags with ⟨att, res⟩
  rw [hfl] at hok
  cases res with
  | error e => cases hok
  | ok s =>
      dsimp only at hok
      split at hok
      · cases hok
      · injection hok with hout
        rw [← hout, List.length_take]
        exact min_le_left _ _

/-- Witness for claim C9: five feed entries with the default limit
and with an explicit limit of 2. -/
theorem limit_truncation_witness :
    latestNewsItems (some 2) false [1, 2, 3, 4, 5] (fun n => n * 10) = [10, 20] ∧
    (latestNewsItems none true [1, 2, 3] (fun n => n * 10)).length ≤ 20 ∧
    mostPopularHandler none true (some "") true [] (fun _ => ["a", "b", "c"]) "" 2 =
      .ok ["a", "b"] ∧
    (["a", "b"] : List String).length ≤ 2 := by
  have h1 := limit_truncation (some 2) false [1, 2, 3, 4, 5] (fun n => n * 10)
  have h2 := limit_truncation (none : Option Nat) true [1, 2, 3] (fun n => n * 10)
  have h3 := (limit_truncation (some 2) true ([] : List Nat) (fun n => n)).2.2.2
    none (some "") true [] (fun _ => ["a", "b", "c"]) "" ["a", "b"] (by rfl)
  exact ⟨h1.1.trans (by decide), h2.2.2.1 rfl, by rfl, h3⟩
